import Mathlib

/-!
Shallow embedding of the loan transaction core of the `libapp` repository
(`src/backend/app`): the borrow/return coordinator (`services/borrow_service.py`),
the retry wrapper (`core/decorators.py`), the sliding-window rate limiter
(`core/security.py`), and the data model (`models/book.py`,
`models/borrow_record.py`, `core/config.py`).

Timestamps are modelled as integers (epoch seconds); `timedelta(days=d)` is
`d * 86400` seconds.  The database state is a record of rows; a service call is
a function from state to either an error (the transaction rolls back, leaving
the state unchanged) or a successor state together with the response record
(the transaction commits).  Row mutation through an ORM handle obtained by a
`find`-style query is modelled by updating the first matching row of the list.
-/

namespace LibApp

/-- Status enumeration from `app/models/borrow_record.py` (`BorrowStatus`):
`BORROWED` is the initial state of a loan, `RETURNED` the terminal one. -/
inductive BorrowStatus
  | borrowed
  | returned
deriving DecidableEq, Repr

/-- The inventory fields of the `Book` row (`app/models/book.py`) used by the
loan core: `total_copies`, `available_copies`, and the optimistic-locking
`version_id` counter. -/
structure Book where
  id : Nat
  total_copies : Int
  available_copies : Int
  version_id : Int
deriving DecidableEq, Repr

/-- The `BorrowRecord` row (`app/models/borrow_record.py`): links a book and a
member, with `borrowed_at`, nullable `due_date` and `returned_at`, and a
two-state `status`. -/
structure BorrowRecord where
  id : Nat
  book_id : Nat
  member_id : Nat
  borrowed_at : Int
  due_date : Option Int
  returned_at : Option Int
  status : BorrowStatus
deriving DecidableEq, Repr

/-- The database state visible to the loan core: book rows, member ids
(the core only ever checks member existence), and borrow-record rows. -/
structure DBState where
  books : List Book
  members : List Nat
  borrows : List BorrowRecord
deriving DecidableEq, Repr

/-- The error taxonomy of `app/core/exceptions.py` restricted to the
`LibraryAppError` subclasses raised by the borrow service. -/
inductive BorrowError
  | inventoryUnavailable
  | borrowLimitExceeded
  | alreadyReturned
  | memberNotFound
  | bookNotFound
  | borrowRecordNotFound
  | activeBorrowExists
deriving DecidableEq, Repr

/-- `Settings.MAX_ACTIVE_BORROWS` default from `app/core/config.py`. -/
def MAX_ACTIVE_BORROWS : Nat := 5

/-- `Settings.DEFAULT_BORROW_DURATION_DAYS` default from `app/core/config.py`. -/
def DEFAULT_BORROW_DURATION_DAYS : Int := 14

/-- `timedelta(days = d)` measured in epoch seconds. -/
def timedeltaDays (d : Int) : Int := d * 86400

/-- Update the first element satisfying `p` by `f`, leaving the rest of the
list unchanged: the effect of mutating the single ORM row handle returned by a
`find`-style query. -/
def updateFirst (p : α → Bool) (f : α → α) : List α → List α
  | [] => []
  | x :: xs => if p x then f x :: xs else x :: updateFirst p f xs

/-- `BorrowRepository.list(member_id, status=BORROWED).total`: the number of
borrow records of this member whose status is `BORROWED`. -/
def countActiveBorrows (s : DBState) (memberId : Nat) : Nat :=
  (s.borrows.filter (fun r => r.member_id == memberId && r.status == .borrowed)).length

/-- `BorrowRepository.get_active_borrow(book_id, member_id)`: the record of an
active (`BORROWED`) loan of this book by this member, if any. -/
def getActiveBorrow (s : DBState) (bookId memberId : Nat) : Option BorrowRecord :=
  s.borrows.find? (fun r => r.book_id == bookId && r.member_id == memberId && r.status == .borrowed)

/-- `MemberRepository.get(member_id)` collapsed to the existence check the
borrow service performs on its result. -/
def memberExists (s : DBState) (memberId : Nat) : Bool :=
  s.members.contains memberId

/-- `BookRepository.get_with_lock(book_id)`: the book row, fetched with
`SELECT ... FOR UPDATE` (the lock is the serialization point; in this
sequential model it is the row lookup). -/
def getBook (s : DBState) (bookId : Nat) : Option Book :=
  s.books.find? (fun b => b.id == bookId)

/-- `BorrowRepository.get_by_id_with_lock(borrow_id)`: the borrow-record row,
fetched with `SELECT ... FOR UPDATE`. -/
def getBorrow (s : DBState) (borrowId : Nat) : Option BorrowRecord :=
  s.borrows.find? (fun r => r.id == borrowId)

/-- `BorrowService.borrow_book(book_id, member_id, borrowed_at=None, due_date=None)`
(`app/services/borrow_service.py` lines 33-121).  `now` stands for
`datetime.now(timezone.utc)` and `newId` for `uuid.uuid4()`.  The checks run in
source order: active-borrow limit, member existence, duplicate active borrow,
book existence (locked fetch), availability; only then are the decrement and
the insert performed and committed together.  An error leaves the state
untouched (nothing was mutated before the raise; the session is rolled back). -/
def borrow_book (s : DBState) (bookId memberId : Nat) (now : Int)
    (borrowed_at? due_date? : Option Int) (newId : Nat) :
    Except BorrowError (DBState × BorrowRecord) :=
  let active_count := countActiveBorrows s memberId
  if MAX_ACTIVE_BORROWS ≤ active_count then
    .error .borrowLimitExceeded
  else if !(memberExists s memberId) then
    .error .memberNotFound
  else if (getActiveBorrow s bookId memberId).isSome then
    .error .activeBorrowExists
  else
    match getBook s bookId with
    | none => .error .bookNotFound
    | some book =>
      if book.available_copies < 1 then
        .error .inventoryUnavailable
      else
        let books' := updateFirst (fun b => b.id == bookId)
          (fun b => { b with available_copies := b.available_copies - 1,
                             version_id := b.version_id + 1 }) s.books
        let borrowed_at := borrowed_at?.getD now
        let due_date := due_date?.getD (borrowed_at + timedeltaDays DEFAULT_BORROW_DURATION_DAYS)
        let record : BorrowRecord :=
          { id := newId, book_id := bookId, member_id := memberId,
            borrowed_at := borrowed_at, due_date := some due_date,
            returned_at := none, status := .borrowed }
        .ok ({ s with books := books', borrows := s.borrows ++ [record] }, record)

/-- `BorrowService.return_book(borrow_id, returned_at=None)`
(`app/services/borrow_service.py` lines 125-163).  Locked fetch of the borrow
record, terminal-status check, status flip and `returned_at` stamp, locked
fetch of the referenced book, availability increment, single commit.  An
error rolls the transaction back, leaving the state untouched. -/
def return_book (s : DBState) (borrowId : Nat) (now : Int)
    (returned_at? : Option Int) :
    Except BorrowError (DBState × BorrowRecord) :=
  match getBorrow s borrowId with
  | none => .error .borrowRecordNotFound
  | some record =>
    if record.status ≠ BorrowStatus.borrowed then
      .error .alreadyReturned
    else
      let returned_at := returned_at?.getD now
      match getBook s record.book_id with
      | none => .error .bookNotFound
      | some _ =>
        let borrows' := updateFirst (fun r => r.id == borrowId)
          (fun r => { r with status := .returned, returned_at := some returned_at }) s.borrows
        let books' := updateFirst (fun b => b.id == record.book_id)
          (fun b => { b with available_copies := b.available_copies + 1,
                             version_id := b.version_id + 1 }) s.books
        .ok ({ s with books := books', borrows := borrows' },
             { record with status := .returned, returned_at := some returned_at })

/-- The transactional run of `borrow_book`: on an exception the session is
rolled back by the request boundary, so the observable state is unchanged. -/
def run_borrow (s : DBState) (bookId memberId : Nat) (now : Int)
    (borrowed_at? due_date? : Option Int) (newId : Nat) :
    DBState × Except BorrowError BorrowRecord :=
  match borrow_book s bookId memberId now borrowed_at? due_date? newId with
  | .ok (s', r) => (s', .ok r)
  | .error e => (s, .error e)

/-- The transactional run of `return_book`: on an exception the session is
rolled back by the request boundary, so the observable state is unchanged. -/
def run_return (s : DBState) (borrowId : Nat) (now : Int)
    (returned_at? : Option Int) :
    DBState × Except BorrowError BorrowRecord :=
  match return_book s borrowId now returned_at? with
  | .ok (s', r) => (s', .ok r)
  | .error e => (s, .error e)

/-- Metadata of an SQLAlchemy `Index(...)` declaration as it appears in
`BorrowRecord.__table_args__`. -/
structure IndexDef where
  name : String
  columns : List String
  unique : Bool
  active_only : Option BorrowStatus
deriving DecidableEq, Repr

/-- The `ix_active_borrows` index of `app/models/borrow_record.py`
(`__table_args__`, lines 48-55): a composite index on `(book_id, member_id)`
restricted to rows with `status = BORROWED`.  The `Index` call passes no
`unique=True`, and the migration `df24534f12d6` creates it with
`unique=False`. -/
def ix_active_borrows : IndexDef :=
  { name := "ix_active_borrows",
    columns := ["book_id", "member_id"],
    unique := false,
    active_only := some .borrowed }

/-- One invocation of the operation wrapped by `db_retry`
(`app/core/decorators.py`): it may return a value, raise one of the two caught
transient exception classes (`OperationalError`, `StaleDataError`), or raise
any other exception — here one of the business-rule errors of the borrow
service, which are `LibraryAppError`s and are not caught by the wrapper. -/
inductive CallResult (α : Type)
  | ok (a : α)
  | transient
  | failure (e : BorrowError)
deriving DecidableEq, Repr

/-- The outcome of the `db_retry` wrapper: the wrapped value, the re-raised
transient error after retries are exhausted, or an uncaught error propagated
from the first invocation that raised it. -/
inductive RetryOutcome (α : Type)
  | ok (a : α)
  | transientExhausted
  | failure (e : BorrowError)
deriving DecidableEq, Repr

/-- The `while True` loop of `db_retry.wrapper`, with `attemptsLeft` the number
of retries still permitted (`max_retries - retries`) and `k` the index of the
invocation about to run.  Invocation `k` is the `(k+1)`-st call of the wrapped
function; the second component of the result counts the calls made.  The sleep
between attempts does not affect the result and is not modelled. -/
def db_retry_from (op : Nat → CallResult α) : Nat → Nat → RetryOutcome α × Nat
  | 0, k =>
    match op k with
    | .ok a => (.ok a, k + 1)
    | .failure e => (.failure e, k + 1)
    | .transient => (.transientExhausted, k + 1)
  | n + 1, k =>
    match op k with
    | .ok a => (.ok a, k + 1)
    | .failure e => (.failure e, k + 1)
    | .transient => db_retry_from op n (k + 1)

/-- `db_retry(max_retries)` applied to an operation: run the loop starting from
`retries = 0` on the first invocation. -/
def db_retry (max_retries : Nat) (op : Nat → CallResult α) : RetryOutcome α × Nat :=
  db_retry_from op max_retries 0

/-- The eviction loop of `SlidingWindowRateLimiter.is_allowed`
(`app/core/security.py`): pop timestamps from the front of the queue while the
front entry satisfies `window[0] <= now - 60`.  Timestamps (`time.time()`
values) are modelled in whole epoch seconds. -/
def evictOld (now : Int) : List Int → List Int
  | [] => []
  | t :: rest => if t ≤ now - 60 then evictOld now rest else t :: rest

/-- `SlidingWindowRateLimiter.is_allowed` for one caller identity: evict old
entries, admit (appending `now`) exactly when the remaining queue is shorter
than `requests_per_minute`, reject otherwise.  The limiter keeps one such
queue per caller identity in `self.clients`; this models the queue of the
identity being checked.  The production instance is constructed with
`requests_per_minute = 100`. -/
def is_allowed (requests_per_minute : Nat) (now : Int) (window : List Int) :
    Bool × List Int :=
  let w := evictOld now window
  if w.length < requests_per_minute then (true, w ++ [now]) else (false, w)

/-- Feed a sequence of request times through `is_allowed` for one identity,
collecting the admit/reject verdicts and the final queue. -/
def run_requests (requests_per_minute : Nat) : List Int → List Int → List Bool × List Int
  | [], w => ([], w)
  | t :: ts, w =>
    let step := is_allowed requests_per_minute t w
    let rest := run_requests requests_per_minute ts step.2
    (step.1 :: rest.1, rest.2)

/-! ### Invariants of the data model (spec §3 / §8) -/

/-- Number of `BORROWED` records referencing a given book: the loans currently
holding one of its copies. -/
def grantedCountFor (borrows : List BorrowRecord) (bookId : Nat) : Nat :=
  (borrows.filter (fun r => r.book_id == bookId && r.status == .borrowed)).length

/-- Number of `BORROWED` records for a given (book, member) pair. -/
def activePairCount (borrows : List BorrowRecord) (bookId memberId : Nat) : Nat :=
  (borrows.filter
    (fun r => r.book_id == bookId && r.member_id == memberId && r.status == .borrowed)).length

/-- Well-formedness of the table: primary keys of the book rows are distinct. -/
def Wf (s : DBState) : Prop := (s.books.map Book.id).Nodup

/-- The copies invariant, inductively strengthened: keys are distinct, every
book has a non-negative availability, and availability plus the number of
active loans of the book stays within `total_copies`.  It implies
`0 ≤ available_copies ≤ total_copies` for every book. -/
def InvCopies (s : DBState) : Prop :=
  Wf s ∧ ∀ b ∈ s.books, 0 ≤ b.available_copies ∧
    b.available_copies + (grantedCountFor s.borrows b.id : Int) ≤ b.total_copies

/-- At most one active (`BORROWED`) record exists per (book, member) pair. -/
def AtMostOneActive (s : DBState) : Prop :=
  ∀ bookId memberId : Nat, activePairCount s.borrows bookId memberId ≤ 1

/-! ### Helper lemmas about `updateFirst` -/

theorem updateFirst_map (p : α → Bool) (f : α → α) (g : α → β)
    (hg : ∀ x, g (f x) = g x) :
    ∀ l : List α, (updateFirst p f l).map g = l.map g := by
  intro l
  induction l with
  | nil => rfl
  | cons x xs ih =>
    by_cases h : p x
    · simp [updateFirst, h, hg]
    · simp [updateFirst, h, ih]

theorem map_id_updateFirst_dec (key : Nat) (l : List Book) :
    (updateFirst (fun b => b.id == key)
      (fun b => { b with available_copies := b.available_copies - 1,
                         version_id := b.version_id + 1 }) l).map Book.id
      = l.map Book.id := by
  apply updateFirst_map
  intro x
  rfl

theorem map_id_updateFirst_inc (key : Nat) (l : List Book) :
    (updateFirst (fun b => b.id == key)
      (fun b => { b with available_copies := b.available_copies + 1,
                         version_id := b.version_id + 1 }) l).map Book.id
      = l.map Book.id := by
  apply updateFirst_map
  intro x
  rfl

theorem mem_updateFirst {p : α → Bool} {f : α → α} {l : List α} {b : α}
    (hb : b ∈ updateFirst p f l) : b ∈ l ∨ ∃ a ∈ l, b = f a := by
  induction l with
  | nil => simp [updateFirst] at hb
  | cons x xs ih =>
    by_cases h : p x
    · simp only [updateFirst, if_pos h, List.mem_cons] at hb
      rcases hb with hb | hb
      · exact Or.inr ⟨x, List.mem_cons_self .., hb⟩
      · exact Or.inl (List.mem_cons_of_mem _ hb)
    · simp only [updateFirst, if_neg h, List.mem_cons] at hb
      rcases hb with hb | hb
      · exact Or.inl (hb ▸ List.mem_cons_self ..)
      · rcases ih hb with h' | ⟨a, ha, hfa⟩
        · exact Or.inl (List.mem_cons_of_mem _ h')
        · exact Or.inr ⟨a, List.mem_cons_of_mem _ ha, hfa⟩

theorem mem_updateFirst_of_not {p : α → Bool} {f : α → α} {l : List α} {b : α}
    (hb : b ∈ l) (hp : p b = false) : b ∈ updateFirst p f l := by
  induction l with
  | nil => simp at hb
  | cons x xs ih =>
    rcases List.mem_cons.mp hb with rfl | hb'
    · simp [updateFirst, hp]
    · by_cases h : p x
      · simp [updateFirst, h, List.mem_cons_of_mem _ hb']
      · simp [updateFirst, h]
        exact Or.inr (ih hb')

theorem find?_updateFirst {p : α → Bool} {f : α → α} {l : List α} {a : α}
    (hfind : l.find? p = some a) (hf : ∀ x, p (f x) = p x) :
    (updateFirst p f l).find? p = some (f a) := by
  induction l with
  | nil => simp at hfind
  | cons x xs ih =>
    by_cases h : p x
    · rw [List.find?_cons_of_pos _ h] at hfind
      injection hfind with hfind
      subst hfind
      simp [updateFirst, h, List.find?_cons_of_pos, hf x ▸ h, hf]
    · rw [List.find?_cons_of_neg _ (by simp [h])] at hfind
      simp only [updateFirst, if_neg h]
      rw [List.find?_cons_of_neg _ (by simp [h])]
      exact ih hfind

theorem length_filter_updateFirst {p : α → Bool} (f : α → α) {l : List α} {a : α}
    (q : α → Bool) (hfind : l.find? p = some a) :
    ((updateFirst p f l).filter q).length + (if q a then 1 else 0)
      = (l.filter q).length + (if q (f a) then 1 else 0) := by
  induction l with
  | nil => simp at hfind
  | cons x xs ih =>
    by_cases h : p x
    · rw [List.find?_cons_of_pos _ h] at hfind
      injection hfind with hfind
      subst hfind
      by_cases hq : q x <;> by_cases hqf : q (f x) <;>
        simp [updateFirst, h, List.filter_cons, hq, hqf]
    · rw [List.find?_cons_of_neg _ (by simp [h])] at hfind
      have hx := ih hfind
      by_cases hq : q x <;>
        simp [updateFirst, h, List.filter_cons, hq] <;> omega

theorem mem_updateFirst_nodup {g : α → Nat} {key : Nat} {f : α → α} {l : List α}
    {a b : α}
    (hn : (l.map g).Nodup)
    (ha : l.find? (fun x => g x == key) = some a)
    (hb : b ∈ updateFirst (fun x => g x == key) f l) :
    b = f a ∨ (b ∈ l ∧ g b ≠ key) := by
  induction l with
  | nil => simp at ha
  | cons x xs ih =>
    rw [List.map_cons, List.nodup_cons] at hn
    rw [List.find?_cons] at ha
    by_cases h : (g x == key) = true
    · simp only [h] at ha
      injection ha with ha
      subst ha
      simp only [updateFirst, h, if_true, List.mem_cons] at hb
      rcases hb with rfl | hb'
      · exact Or.inl rfl
      · refine Or.inr ⟨List.mem_cons_of_mem _ hb', ?_⟩
        intro hbk
        apply hn.1
        have hxkey : g x = key := by simpa using h
        rw [hxkey, ← hbk]
        exact List.mem_map_of_mem g hb'
    · rw [Bool.not_eq_true] at h
      simp only [h] at ha
      simp only [updateFirst, h, Bool.false_eq_true, if_false, List.mem_cons] at hb
      rcases hb with rfl | hb'
      · exact Or.inr ⟨List.mem_cons_self .., by simpa using h⟩
      · rcases ih hn.2 ha hb' with h' | ⟨hmem, hne⟩
        · exact Or.inl h'
        · exact Or.inr ⟨List.mem_cons_of_mem _ hmem, hne⟩

/-- Inversion of a successful `borrow_book` call: every check passed, and the
result state carries the decremented book row together with exactly one new
`BORROWED` record. -/
theorem borrow_book_ok_elim {s : DBState} {bookId memberId : Nat} {now : Int}
    {b? d? : Option Int} {newId : Nat} {s' : DBState} {rec : BorrowRecord}
    (hres : borrow_book s bookId memberId now b? d? newId = .ok (s', rec)) :
    countActiveBorrows s memberId < MAX_ACTIVE_BORROWS ∧
    memberExists s memberId = true ∧
    getActiveBorrow s bookId memberId = none ∧
    ∃ book, getBook s bookId = some book ∧ 1 ≤ book.available_copies ∧
      rec = { id := newId, book_id := bookId, member_id := memberId,
              borrowed_at := b?.getD now,
              due_date := some (d?.getD (b?.getD now + timedeltaDays DEFAULT_BORROW_DURATION_DAYS)),
              returned_at := none, status := .borrowed } ∧
      s' = { s with
              books := updateFirst (fun b => b.id == bookId)
                (fun b => { b with available_copies := b.available_copies - 1,
                                   version_id := b.version_id + 1 }) s.books,
              borrows := s.borrows ++ [rec] } := by
  unfold borrow_book at hres
  by_cases h1 : MAX_ACTIVE_BORROWS ≤ countActiveBorrows s memberId
  · simp [h1] at hres
  rw [if_neg h1] at hres
  cases h2 : memberExists s memberId with
  | false => simp [h2] at hres
  | true =>
    simp only [h2, Bool.not_true, Bool.false_eq_true, if_false] at hres
    cases h3 : getActiveBorrow s bookId memberId with
    | some r => simp [h3] at hres
    | none =>
      simp only [h3, Option.isSome_none, Bool.false_eq_true, if_false] at hres
      cases h4 : getBook s bookId with
      | none => simp [h4] at hres
      | some book =>
        simp only [h4] at hres
        by_cases h5 : book.available_copies < 1
        · simp [h5] at hres
        rw [if_neg h5] at hres
        simp only [Except.ok.injEq, Prod.mk.injEq] at hres
        refine ⟨by omega, rfl, rfl, book, rfl, by omega, hres.2.symm, ?_⟩
        rw [← hres.1, ← hres.2]

/-- Inversion of a successful `return_book` call: the record existed and was
still `BORROWED`, the referenced book row existed, and the result state flips
that one record to `RETURNED` while incrementing that one book row. -/
theorem return_book_ok_elim {s : DBState} {borrowId : Nat} {now : Int}
    {returned_at? : Option Int} {s' : DBState} {rec : BorrowRecord}
    (hres : return_book s borrowId now returned_at? = .ok (s', rec)) :
    ∃ rec0, getBorrow s borrowId = some rec0 ∧ rec0.status = .borrowed ∧
      (∃ book, getBook s rec0.book_id = some book) ∧
      rec = { rec0 with status := .returned,
                        returned_at := some (returned_at?.getD now) } ∧
      s' = { s with
              borrows := updateFirst (fun r => r.id == borrowId)
                (fun r => { r with status := .returned,
                                   returned_at := some (returned_at?.getD now) }) s.borrows,
              books := updateFirst (fun b => b.id == rec0.book_id)
                (fun b => { b with available_copies := b.available_copies + 1,
                                   version_id := b.version_id + 1 }) s.books } := by
  unfold return_book at hres
  cases h1 : getBorrow s borrowId with
  | none => simp [h1] at hres
  | some rec0 =>
    simp only [h1] at hres
    by_cases h2 : rec0.status ≠ BorrowStatus.borrowed
    · simp [h2] at hres
    rw [if_neg h2] at hres
    rw [not_not] at h2
    cases h3 : getBook s rec0.book_id with
    | none => simp [h3] at hres
    | some book =>
      simp only [h3] at hres
      simp only [Except.ok.injEq, Prod.mk.injEq] at hres
      exact ⟨rec0, rfl, h2, ⟨book, h3⟩, hres.2.symm, hres.1.symm⟩

theorem grantedCountFor_append (l : List BorrowRecord) (r : BorrowRecord) (i : Nat) :
    grantedCountFor (l ++ [r]) i
      = grantedCountFor l i
        + (if r.book_id == i && r.status == BorrowStatus.borrowed then 1 else 0) := by
  simp only [grantedCountFor, List.filter_append, List.length_append, List.filter_cons]
  split <;> simp

theorem activePairCount_append (l : List BorrowRecord) (r : BorrowRecord) (i m : Nat) :
    activePairCount (l ++ [r]) i m
      = activePairCount l i m
        + (if r.book_id == i && r.member_id == m && r.status == BorrowStatus.borrowed
           then 1 else 0) := by
  simp only [activePairCount, List.filter_append, List.length_append, List.filter_cons]
  split <;> simp

theorem activePairCount_eq_zero {s : DBState} {bookId memberId : Nat}
    (h : getActiveBorrow s bookId memberId = none) :
    activePairCount s.borrows bookId memberId = 0 := by
  rw [getActiveBorrow, List.find?_eq_none] at h
  rw [activePairCount, List.length_eq_zero]
  rw [List.filter_eq_nil_iff]
  exact h

theorem grantedCountFor_updateFlip (borrows : List BorrowRecord) (borrowId B : Nat)
    (t : Int) (rec0 : BorrowRecord)
    (hfind : borrows.find? (fun r => r.id == borrowId) = some rec0) :
    grantedCountFor (updateFirst (fun r => r.id == borrowId)
        (fun r => { r with status := .returned, returned_at := some t }) borrows) B
      + (if rec0.book_id == B && rec0.status == BorrowStatus.borrowed then 1 else 0)
      = grantedCountFor borrows B := by
  have h := length_filter_updateFirst
    (fun r => { r with status := .returned, returned_at := some t })
    (fun r => r.book_id == B && r.status == BorrowStatus.borrowed) hfind
  simpa [grantedCountFor] using h

theorem activePairCount_updateFlip (borrows : List BorrowRecord) (borrowId i m : Nat)
    (t : Int) (rec0 : BorrowRecord)
    (hfind : borrows.find? (fun r => r.id == borrowId) = some rec0) :
    activePairCount (updateFirst (fun r => r.id == borrowId)
        (fun r => { r with status := .returned, returned_at := some t }) borrows) i m
      + (if rec0.book_id == i && rec0.member_id == m && rec0.status == BorrowStatus.borrowed
         then 1 else 0)
      = activePairCount borrows i m := by
  have h := length_filter_updateFirst
    (fun r => { r with status := .returned, returned_at := some t })
    (fun r => r.book_id == i && r.member_id == m && r.status == BorrowStatus.borrowed) hfind
  simpa [activePairCount] using h

theorem borrow_preserves_invCopies {s : DBState}
    (hwf : Wf s)
    (hinv : ∀ b ∈ s.books, 0 ≤ b.available_copies ∧
      b.available_copies + (grantedCountFor s.borrows b.id : Int) ≤ b.total_copies)
    {bookId memberId : Nat} {now : Int} {b? d? : Option Int} {newId : Nat}
    {s' : DBState} {rec : BorrowRecord}
    (hres : borrow_book s bookId memberId now b? d? newId = .ok (s', rec)) :
    InvCopies s' := by
  obtain ⟨-, -, -, book, hbook, havail, hrec, hs'⟩ := borrow_book_ok_elim hres
  have hbookmem : book ∈ s.books := List.mem_of_find?_eq_some hbook
  have hbookid : book.id = bookId := by simpa using List.find?_some hbook
  refine ⟨?_, ?_⟩
  · unfold Wf
    simp only [hs']
    rw [map_id_updateFirst_dec]
    exact hwf
  · intro b' hb'
    have hb'books : b' ∈ updateFirst (fun b => b.id == bookId)
        (fun b => { b with available_copies := b.available_copies - 1,
                           version_id := b.version_id + 1 }) s.books := by
      rw [hs'] at hb'
      exact hb'
    have hborrows : s'.borrows = s.borrows ++ [rec] := by rw [hs']
    rcases mem_updateFirst_nodup hwf hbook hb'books with rfl | ⟨hmem', hne⟩
    · have hb := hinv book hbookmem
      rw [hbookid] at hb
      dsimp only
      rw [hbookid, hborrows, hrec, grantedCountFor_append]
      simp only [beq_self_eq_true, Bool.true_and]
      simp only [show (BorrowStatus.borrowed == BorrowStatus.borrowed) = true from rfl,
        if_true]
      push_cast
      omega
    · have hb := hinv b' hmem'
      rw [hborrows, hrec, grantedCountFor_append]
      have hfalse : (bookId == b'.id) = false := by
        simp only [beq_eq_false_iff_ne, ne_eq]
        exact fun hcontra => hne (hcontra ▸ rfl)
      simp only [hfalse, Bool.false_and, Bool.false_eq_true, if_false]
      omega

theorem return_preserves_invCopies {s : DBState}
    (hwf : Wf s)
    (hinv : ∀ b ∈ s.books, 0 ≤ b.available_copies ∧
      b.available_copies + (grantedCountFor s.borrows b.id : Int) ≤ b.total_copies)
    {borrowId : Nat} {now : Int} {returned_at? : Option Int}
    {s' : DBState} {rec : BorrowRecord}
    (hres : return_book s borrowId now returned_at? = .ok (s', rec)) :
    InvCopies s' := by
  obtain ⟨rec0, hrec0, hst, ⟨book, hbook⟩, hrec, hs'⟩ := return_book_ok_elim hres
  have hbookmem : book ∈ s.books := List.mem_of_find?_eq_some hbook
  have hbookid : book.id = rec0.book_id := by simpa using List.find?_some hbook
  have hfind : s.borrows.find? (fun r => r.id == borrowId) = some rec0 := hrec0
  refine ⟨?_, ?_⟩
  · unfold Wf
    simp only [hs']
    rw [map_id_updateFirst_inc]
    exact hwf
  · intro b' hb'
    have hb'books : b' ∈ updateFirst (fun b => b.id == rec0.book_id)
        (fun b => { b with available_copies := b.available_copies + 1,
                           version_id := b.version_id + 1 }) s.books := by
      rw [hs'] at hb'
      exact hb'
    have hborrows : s'.borrows = updateFirst (fun r => r.id == borrowId)
        (fun r => { r with status := .returned,
                           returned_at := some (returned_at?.getD now) }) s.borrows := by
      rw [hs']
    rcases mem_updateFirst_nodup hwf hbook hb'books with rfl | ⟨hmem', hne⟩
    · have hb := hinv book hbookmem
      rw [hbookid] at hb
      have hflip := grantedCountFor_updateFlip s.borrows borrowId rec0.book_id
        (returned_at?.getD now) rec0 hfind
      have hcond : (rec0.book_id == rec0.book_id
          && rec0.status == BorrowStatus.borrowed) = true := by
        rw [hst]
        simp
      rw [hcond, if_pos rfl] at hflip
      dsimp only
      rw [hbookid, hborrows]
      omega
    · have hb := hinv b' hmem'
      have hflip := grantedCountFor_updateFlip s.borrows borrowId b'.id
        (returned_at?.getD now) rec0 hfind
      have hfalse : (rec0.book_id == b'.id) = false := by
        simp only [beq_eq_false_iff_ne, ne_eq]
        exact fun hcontra => hne (hcontra ▸ rfl)
      rw [hfalse, Bool.false_and, if_neg Bool.false_ne_true] at hflip
      rw [hborrows]
      omega



theorem borrow_preserves_atMostOne {s : DBState}
    (h : AtMostOneActive s)
    {bookId memberId : Nat} {now : Int} {b? d? : Option Int} {newId : Nat}
    {s' : DBState} {rec : BorrowRecord}
    (hres : borrow_book s bookId memberId now b? d? newId = .ok (s', rec)) :
    AtMostOneActive s' := by
  obtain ⟨-, -, hdup, book, hbook, -, hrec, hs'⟩ := borrow_book_ok_elim hres
  intro i m
  have hborrows : s'.borrows = s.borrows ++ [rec] := by rw [hs']
  rw [hborrows, hrec, activePairCount_append]
  rcases eq_or_ne bookId i with rfl | hi
  · rcases eq_or_ne memberId m with rfl | hm
    · have h0 := activePairCount_eq_zero hdup
      simp only [beq_self_eq_true, Bool.true_and,
        show (BorrowStatus.borrowed == BorrowStatus.borrowed) = true from rfl, if_true]
      omega
    · have hmf : (memberId == m) = false := by
        simp only [beq_eq_false_iff_ne, ne_eq]
        exact hm
      simp only [hmf, Bool.false_and, Bool.and_false, Bool.false_eq_true, if_false]
      have := h bookId m
      omega
  · have hif : (bookId == i) = false := by
      simp only [beq_eq_false_iff_ne, ne_eq]
      exact hi
    simp only [hif, Bool.false_and, Bool.false_eq_true, if_false]
    have := h i m
    omega

theorem return_preserves_atMostOne {s : DBState}
    (h : AtMostOneActive s)
    {borrowId : Nat} {now : Int} {returned_at? : Option Int}
    {s' : DBState} {rec : BorrowRecord}
    (hres : return_book s borrowId now returned_at? = .ok (s', rec)) :
    AtMostOneActive s' := by
  obtain ⟨rec0, hrec0, hst, -, hrec, hs'⟩ := return_book_ok_elim hres
  intro i m
  have hborrows : s'.borrows = updateFirst (fun r => r.id == borrowId)
      (fun r => { r with status := .returned,
                         returned_at := some (returned_at?.getD now) }) s.borrows := by
    rw [hs']
  rw [hborrows]
  have hflip := activePairCount_updateFlip s.borrows borrowId i m
    (returned_at?.getD now) rec0 hrec0
  have hpair := h i m
  split at hflip <;> omega

theorem pairCount_le_one_of_pairwise (l : List BorrowRecord) (i m : Nat)
    (h : l.Pairwise (fun r1 r2 =>
      (r1.book_id == r2.book_id && r1.member_id == r2.member_id
        && r1.status == BorrowStatus.borrowed
        && r2.status == BorrowStatus.borrowed) = false)) :
    (l.filter (fun r => r.book_id == i && r.member_id == m
      && r.status == BorrowStatus.borrowed)).length ≤ 1 := by
  induction l with
  | nil => simp
  | cons x xs ih =>
    rw [List.pairwise_cons] at h
    rw [List.filter_cons]
    by_cases hx : (x.book_id == i && x.member_id == m
        && x.status == BorrowStatus.borrowed) = true
    · have hempty : xs.filter (fun r => r.book_id == i && r.member_id == m
          && r.status == BorrowStatus.borrowed) = [] := by
        rw [List.filter_eq_nil_iff]
        intro y hy hpy
        have hR := h.1 y hy
        simp only [Bool.and_eq_true, beq_iff_eq] at hx hpy
        obtain ⟨⟨hx1, hx2⟩, hx3⟩ := hx
        obtain ⟨⟨hy1, hy2⟩, hy3⟩ := hpy
        rw [hx1, hx2, hx3, hy1, hy2, hy3] at hR
        simp at hR
      rw [if_pos hx, hempty]
      simp
    · rw [if_neg hx]
      exact ih h.2

theorem atMostOneActive_of_pairwise {s : DBState}
    (h : s.borrows.Pairwise (fun r1 r2 =>
      (r1.book_id == r2.book_id && r1.member_id == r2.member_id
        && r1.status == BorrowStatus.borrowed
        && r2.status == BorrowStatus.borrowed) = false)) :
    AtMostOneActive s :=
  fun i m => pairCount_le_one_of_pairwise s.borrows i m h

/-! ### Demonstration states used by the concrete scenarios and witnesses -/

/-- A book with five copies, all available. -/
def demoBook : Book := { id := 1, total_copies := 5, available_copies := 5, version_id := 1 }

/-- A fresh library: one book, one member (id 7), no loans. -/
def demoState : DBState := { books := [demoBook], members := [7], borrows := [] }

/-- The record created by granting `demoBook` to member 7 at time 0. -/
def demoRecGranted : BorrowRecord :=
  { id := 100, book_id := 1, member_id := 7, borrowed_at := 0,
    due_date := some 1209600, returned_at := none, status := .borrowed }

/-- The state after that grant: one copy out. -/
def demoStateAfterGrant : DBState :=
  { books := [{ id := 1, total_copies := 5, available_copies := 4, version_id := 2 }],
    members := [7], borrows := [demoRecGranted] }

/-- The record after returning that loan at time 3600. -/
def demoRecReturned : BorrowRecord :=
  { id := 100, book_id := 1, member_id := 7, borrowed_at := 0,
    due_date := some 1209600, returned_at := some 3600, status := .returned }

/-- The state after the return: all copies back. -/
def demoStateAfterReturn : DBState :=
  { books := [{ id := 1, total_copies := 5, available_copies := 5, version_id := 3 }],
    members := [7], borrows := [demoRecReturned] }

/-- A member who already holds five active loans on five distinct books. -/
def demoLimitState : DBState :=
  { books := [demoBook], members := [7],
    borrows := [
      { id := 10, book_id := 11, member_id := 7, borrowed_at := 0,
        due_date := some 1209600, returned_at := none, status := .borrowed },
      { id := 12, book_id := 13, member_id := 7, borrowed_at := 0,
        due_date := some 1209600, returned_at := none, status := .borrowed },
      { id := 14, book_id := 15, member_id := 7, borrowed_at := 0,
        due_date := some 1209600, returned_at := none, status := .borrowed },
      { id := 16, book_id := 17, member_id := 7, borrowed_at := 0,
        due_date := some 1209600, returned_at := none, status := .borrowed },
      { id := 18, book_id := 19, member_id := 7, borrowed_at := 0,
        due_date := some 1209600, returned_at := none, status := .borrowed }] }

/-! ### Claim theorems -/

/-- C1: for every CatalogItem, `0 ≤ available_copies ≤ total_copies` holds at
all times: every state satisfying the (inductively strengthened) copies
invariant `InvCopies` satisfies the bounds, and both `borrow_book` (grant) and
`return_book` (return) preserve `InvCopies`.  Moreover a grant succeeds only
when the locked book row had `available_copies ≥ 1`, and a return succeeds
only for a loan record still in status `BORROWED` (GRANTED). -/
theorem copies_invariant_preserved (s : DBState) (h : InvCopies s) :
    (∀ b ∈ s.books, 0 ≤ b.available_copies ∧ b.available_copies ≤ b.total_copies) ∧
    (∀ bookId memberId now b? d? newId s' rec,
      borrow_book s bookId memberId now b? d? newId = Except.ok (s', rec) →
        InvCopies s' ∧
        ∃ book, getBook s bookId = some book ∧ 1 ≤ book.available_copies) ∧
    (∀ borrowId now r? s' rec,
      return_book s borrowId now r? = Except.ok (s', rec) →
        InvCopies s' ∧
        ∃ rec0, getBorrow s borrowId = some rec0 ∧
          rec0.status = BorrowStatus.borrowed) := by
  obtain ⟨hwf, hinv⟩ := h
  refine ⟨?_, ?_, ?_⟩
  · intro b hb
    have hb' := hinv b hb
    have hnn : (0:Int) ≤ (grantedCountFor s.borrows b.id : Int) := Int.ofNat_nonneg _
    exact ⟨hb'.1, by omega⟩
  · intro bookId memberId now b? d? newId s' rec hres
    refine ⟨borrow_preserves_invCopies hwf hinv hres, ?_⟩
    obtain ⟨-, -, -, book, hbook, havail, -, -⟩ := borrow_book_ok_elim hres
    exact ⟨book, hbook, havail⟩
  · intro borrowId now r? s' rec hres
    refine ⟨return_preserves_invCopies hwf hinv hres, ?_⟩
    obtain ⟨rec0, hrec0, hst, -, -, -⟩ := return_book_ok_elim hres
    exact ⟨rec0, hrec0, hst⟩

/-- Witness for C1 at the concrete demo state. -/
theorem copies_invariant_preserved_witness :
    0 ≤ demoBook.available_copies ∧ demoBook.available_copies ≤ demoBook.total_copies :=
  (copies_invariant_preserved demoState
    (by unfold InvCopies Wf grantedCountFor; decide)).1 demoBook (by decide)

/-- C2: `borrow_book` runs its checks in source order — active-loan limit,
member existence, duplicate active loan, item existence (locked fetch),
availability (checked only on the locked row) — and the first failing check
determines the error; on every failure the state is unchanged (the transaction
rolls back).  The `AtMostOneActive` hypothesis scopes the statement to states
satisfying the store's at-most-one-active-loan invariant, under which the
single-result active-loan lookup of the source is faithfully a first-match
search. -/
theorem borrow_check_order (s : DBState) (h : AtMostOneActive s)
    (bookId memberId : Nat) (now : Int) (b? d? : Option Int) (newId : Nat) :
    MAX_ACTIVE_BORROWS = 5 ∧
    (MAX_ACTIVE_BORROWS ≤ countActiveBorrows s memberId →
      borrow_book s bookId memberId now b? d? newId
        = Except.error BorrowError.borrowLimitExceeded) ∧
    (countActiveBorrows s memberId < MAX_ACTIVE_BORROWS →
      memberExists s memberId = false →
      borrow_book s bookId memberId now b? d? newId
        = Except.error BorrowError.memberNotFound) ∧
    (countActiveBorrows s memberId < MAX_ACTIVE_BORROWS →
      memberExists s memberId = true →
      (getActiveBorrow s bookId memberId).isSome = true →
      borrow_book s bookId memberId now b? d? newId
        = Except.error BorrowError.activeBorrowExists) ∧
    (countActiveBorrows s memberId < MAX_ACTIVE_BORROWS →
      memberExists s memberId = true →
      getActiveBorrow s bookId memberId = none →
      getBook s bookId = none →
      borrow_book s bookId memberId now b? d? newId
        = Except.error BorrowError.bookNotFound) ∧
    (∀ book, countActiveBorrows s memberId < MAX_ACTIVE_BORROWS →
      memberExists s memberId = true →
      getActiveBorrow s bookId memberId = none →
      getBook s bookId = some book →
      book.available_copies < 1 →
      borrow_book s bookId memberId now b? d? newId
        = Except.error BorrowError.inventoryUnavailable) ∧
    (∀ e, (run_borrow s bookId memberId now b? d? newId).2 = Except.error e →
      (run_borrow s bookId memberId now b? d? newId).1 = s) := by
  refine ⟨rfl, ?_, ?_, ?_, ?_, ?_, ?_⟩
  · intro h1
    simp [borrow_book, h1]
  · intro h1 h2
    simp [borrow_book, Nat.not_le.mpr h1, h2]
  · intro h1 h2 h3
    simp [borrow_book, Nat.not_le.mpr h1, h2, h3]
  · intro h1 h2 h3 h4
    simp [borrow_book, Nat.not_le.mpr h1, h2, h3, h4]
  · intro book h1 h2 h3 h4 h5
    simp [borrow_book, Nat.not_le.mpr h1, h2, h3, h4, h5]
  · intro e
    unfold run_borrow
    cases hb : borrow_book s bookId memberId now b? d? newId with
    | ok v => simp
    | error e' => simp

/-- Witness for C2: a member with five active loans is rejected with the
limit error before anything else is looked at. -/
theorem borrow_check_order_witness :
    borrow_book demoLimitState 1 7 0 none none 100
      = Except.error BorrowError.borrowLimitExceeded :=
  (borrow_check_order demoLimitState (atMostOneActive_of_pairwise (by decide))
    1 7 0 none none 100).2.1 (by decide)

/-- C3: when every check passes, `borrow_book` decrements the item's
`available_copies` by exactly one and appends exactly one `BORROWED` record
whose `due_date` is `borrowed_at + DEFAULT_BORROW_DURATION_DAYS` days
(default 14) when no override is given; both mutations land in the same
successor state (the single transaction commit), and books other than the
borrowed one are untouched. -/
theorem borrow_success_effects (s : DBState) (bookId memberId : Nat) (now : Int)
    (newId : Nat) (s' : DBState) (rec : BorrowRecord) (book : Book)
    (hbook : getBook s bookId = some book)
    (hres : borrow_book s bookId memberId now none none newId = Except.ok (s', rec)) :
    DEFAULT_BORROW_DURATION_DAYS = 14 ∧
    s'.borrows = s.borrows ++ [rec] ∧
    rec.status = BorrowStatus.borrowed ∧
    rec.borrowed_at = now ∧
    rec.due_date = some (now + timedeltaDays DEFAULT_BORROW_DURATION_DAYS) ∧
    rec.book_id = bookId ∧
    rec.member_id = memberId ∧
    getBook s' bookId
      = some { book with available_copies := book.available_copies - 1,
                         version_id := book.version_id + 1 } ∧
    (∀ b ∈ s.books, b.id ≠ bookId → b ∈ s'.books) := by
  obtain ⟨-, -, -, book', hbook', -, hrec, hs'⟩ := borrow_book_ok_elim hres
  rw [hbook] at hbook'
  injection hbook' with hbook'
  subst hbook'
  have hbooks : s'.books = updateFirst (fun b => b.id == bookId)
      (fun b => { b with available_copies := b.available_copies - 1,
                         version_id := b.version_id + 1 }) s.books := by
    rw [hs']
  have hborrows : s'.borrows = s.borrows ++ [rec] := by rw [hs']
  refine ⟨rfl, hborrows, by simp [hrec], by simp [hrec], by simp [hrec],
    by simp [hrec], by simp [hrec], ?_, ?_⟩
  · rw [getBook, hbooks]
    exact find?_updateFirst hbook (fun x => rfl)
  · intro b hb hne
    rw [hbooks]
    apply mem_updateFirst_of_not hb
    simp only [beq_eq_false_iff_ne, ne_eq]
    exact hne

/-- Witness for C3 at the demo state: the due date is the grant time plus
fourteen days of seconds. -/
theorem borrow_success_effects_witness :
    demoRecGranted.due_date
      = some (0 + timedeltaDays DEFAULT_BORROW_DURATION_DAYS) :=
  (borrow_success_effects demoState 1 7 0 100 demoStateAfterGrant demoRecGranted
    demoBook rfl rfl).2.2.2.2.1

/-- C4 counterexample: the claim says duplicate grants are "authoritatively
guaranteed" impossible "by a uniqueness constraint in the loan store scoped to
active status".  The `ix_active_borrows` index embedded from
`app/models/borrow_record.py` (and created with `unique=False` by migration
`df24534f12d6`) is not unique, so no such storage-level uniqueness constraint
exists. -/
theorem ix_active_borrows_not_unique : ix_active_borrows.unique = false := rfl

/-- C4 (amended): at most one `BORROWED` record per (book, member) pair is an
invariant preserved by `borrow_book` (thanks to the `get_active_borrow`
pre-check) and by `return_book`; the `ix_active_borrows` partial index does
cover `(book_id, member_id)` scoped to active status, but it is declared
non-unique, so the store enforces no uniqueness and the only protection is the
pre-check, which surfaces `ActiveBorrowExistsError`. -/
theorem at_most_one_active_loan (s : DBState) (h : AtMostOneActive s) :
    ix_active_borrows.unique = false ∧
    ix_active_borrows.columns = ["book_id", "member_id"] ∧
    ix_active_borrows.active_only = some BorrowStatus.borrowed ∧
    (∀ bookId memberId now b? d? newId s' rec,
      borrow_book s bookId memberId now b? d? newId = Except.ok (s', rec) →
        AtMostOneActive s') ∧
    (∀ borrowId now r? s' rec,
      return_book s borrowId now r? = Except.ok (s', rec) → AtMostOneActive s') := by
  refine ⟨rfl, rfl, rfl, ?_, ?_⟩
  · intro bookId memberId now b? d? newId s' rec hres
    exact borrow_preserves_atMostOne h hres
  · intro borrowId now r? s' rec hres
    exact return_preserves_atMostOne h hres

/-- Witness for C4: the invariant holds after the demo grant. -/
theorem at_most_one_active_loan_witness : AtMostOneActive demoStateAfterGrant :=
  (at_most_one_active_loan demoState (atMostOneActive_of_pairwise (by decide))).2.2.2.1
    1 7 0 none none 100 demoStateAfterGrant demoRecGranted rfl

/-- C5: returning a loan whose record is already `RETURNED` always fails with
`AlreadyReturned`, and the failed transaction changes nothing: the observable
state after the call is the caller's state, so no availability is incremented
and the record keeps its status and `returned_at`. -/
theorem return_already_returned (s : DBState) (borrowId : Nat) (now : Int)
    (returned_at? : Option Int) (rec : BorrowRecord)
    (hrec : getBorrow s borrowId = some rec)
    (hst : rec.status = BorrowStatus.returned) :
    return_book s borrowId now returned_at?
      = Except.error BorrowError.alreadyReturned ∧
    run_return s borrowId now returned_at?
      = (s, Except.error BorrowError.alreadyReturned) := by
  have herr : return_book s borrowId now returned_at?
      = Except.error BorrowError.alreadyReturned := by
    unfold return_book
    rw [hrec]
    simp [hst]
  refine ⟨herr, ?_⟩
  unfold run_return
  rw [herr]

/-- Witness for C5: the second return of the demo loan fails and leaves the
state exactly as it was. -/
theorem return_already_returned_witness :
    run_return demoStateAfterReturn 100 9999 none
      = (demoStateAfterReturn, Except.error BorrowError.alreadyReturned) :=
  (return_already_returned demoStateAfterReturn 100 9999 none demoRecReturned
    rfl rfl).2

/-- C6: the grant/return round trip on the demo item (`total_copies = 5`,
`available_copies = 5`): the grant leaves `available_copies = 4` and a
`BORROWED` record; returning that loan restores `available_copies = 5`, flips
the record to `RETURNED`, and stamps `returned_at`. -/
theorem grant_return_roundtrip :
    borrow_book demoState 1 7 0 none none 100
      = Except.ok (demoStateAfterGrant, demoRecGranted) ∧
    (getBook demoStateAfterGrant 1).map Book.available_copies = some 4 ∧
    demoRecGranted.status = BorrowStatus.borrowed ∧
    return_book demoStateAfterGrant 100 3600 none
      = Except.ok (demoStateAfterReturn, demoRecReturned) ∧
    (getBook demoStateAfterReturn 1).map Book.available_copies = some 5 ∧
    (getBook demoStateAfterReturn 1).map Book.total_copies = some 5 ∧
    demoRecReturned.status = BorrowStatus.returned ∧
    demoRecReturned.returned_at = some 3600 :=
  ⟨rfl, rfl, rfl, rfl, rfl, rfl, rfl, rfl⟩

theorem db_retry_from_ok {α : Type} (op : Nat → CallResult α) (al k : Nat) (a : α)
    (h : op k = CallResult.ok a) :
    db_retry_from op al k = (RetryOutcome.ok a, k + 1) := by
  cases al <;> simp [db_retry_from, h]

theorem db_retry_from_failure {α : Type} (op : Nat → CallResult α) (al k : Nat)
    (e : BorrowError) (h : op k = CallResult.failure e) :
    db_retry_from op al k = (RetryOutcome.failure e, k + 1) := by
  cases al <;> simp [db_retry_from, h]

theorem db_retry_from_transient_step {α : Type} (op : Nat → CallResult α) (n k : Nat)
    (h : op k = CallResult.transient) :
    db_retry_from op (n + 1) k = db_retry_from op n (k + 1) := by
  simp [db_retry_from, h]

/-- C7: with `max_retries = 3` (the default used on the borrow service), an
operation that raises a transient storage error on exactly its first two
invocations and succeeds on the third makes `db_retry` return that result,
with the wrapped operation invoked exactly three times. -/
theorem retry_transient_twice_then_ok {α : Type} (op : Nat → CallResult α) (a : α)
    (h0 : op 0 = CallResult.transient) (h1 : op 1 = CallResult.transient)
    (h2 : op 2 = CallResult.ok a) :
    db_retry 3 op = (RetryOutcome.ok a, 3) := by
  unfold db_retry
  rw [db_retry_from_transient_step op 2 0 h0]
  rw [db_retry_from_transient_step op 1 1 h1]
  exact db_retry_from_ok op 1 2 a h2

/-- A concrete operation that is transient twice, then succeeds. -/
def demoRetryOp : Nat → CallResult Nat :=
  fun k => if k < 2 then .transient else .ok 42

/-- Witness for C7. -/
theorem retry_transient_twice_then_ok_witness :
    db_retry 3 demoRetryOp = (RetryOutcome.ok 42, 3) :=
  retry_transient_twice_then_ok demoRetryOp 42 rfl rfl rfl

/-- C8: a non-transient error — any of the borrow service's business-rule
errors, which are not of the two caught exception classes — propagates out of
`db_retry` unmodified after a single invocation, for every retry budget:
zero retries happen. -/
theorem retry_nontransient_passthrough {α : Type} (max_retries : Nat)
    (op : Nat → CallResult α) (e : BorrowError)
    (h : op 0 = CallResult.failure e) :
    db_retry max_retries op = (RetryOutcome.failure e, 1) := by
  unfold db_retry
  exact db_retry_from_failure op max_retries 0 e h

/-- A concrete operation that always raises a business-rule error. -/
def demoFailOp : Nat → CallResult Nat :=
  fun _ => .failure .inventoryUnavailable

/-- Witness for C8. -/
theorem retry_nontransient_passthrough_witness :
    db_retry 3 demoFailOp = (RetryOutcome.failure BorrowError.inventoryUnavailable, 1) :=
  retry_nontransient_passthrough 3 demoFailOp BorrowError.inventoryUnavailable rfl

theorem evictOld_sorted (now : Int) (w : List Int)
    (hs : w.Sorted (· ≤ ·)) :
    evictOld now w = w.filter (fun t => decide (now - 60 < t)) := by
  induction w with
  | nil => rfl
  | cons t rest ih =>
    rw [List.sorted_cons] at hs
    by_cases h : t ≤ now - 60
    · rw [evictOld, if_pos h, List.filter_cons]
      have hd : decide (now - 60 < t) = false := decide_eq_false (by omega)
      rw [hd]
      simp only [Bool.false_eq_true, if_false]
      exact ih hs.2
    · rw [evictOld, if_neg h, List.filter_cons]
      have hd : decide (now - 60 < t) = true := decide_eq_true (by omega)
      rw [hd]
      simp only [if_true]
      congr 1
      symm
      rw [List.filter_eq_self]
      intro u hu
      have := hs.1 u hu
      exact decide_eq_true (by omega)

set_option maxRecDepth 10000 in
/-- C9: for one caller identity under the production capacity of 100 per 60
seconds: a check first evicts exactly the entries dated `now - 60` or earlier
(for the monotone queues the limiter builds, that is the eviction loop's
effect), then admits — appending `now` — iff the remaining queue is shorter
than 100.  Consequently, 100 requests at time 0 are all admitted, the 101st
request inside the window (at time 30) is rejected, and a request 61 seconds
after the first is admitted again. -/
theorem rate_limiter_window (now : Int) (w : List Int)
    (hs : w.Sorted (· ≤ ·)) :
    (evictOld now w = w.filter (fun t => decide (now - 60 < t))) ∧
    ((is_allowed 100 now w).1 = true ↔
      (w.filter (fun t => decide (now - 60 < t))).length < 100) ∧
    ((is_allowed 100 now w).1 = true →
      (is_allowed 100 now w).2
        = w.filter (fun t => decide (now - 60 < t)) ++ [now]) ∧
    (run_requests 100 (List.replicate 100 0 ++ [30]) []).1
      = List.replicate 100 true ++ [false] ∧
    (is_allowed 100 61 (run_requests 100 (List.replicate 100 0 ++ [30]) []).2).1
      = true := by
  have hev := evictOld_sorted now w hs
  refine ⟨hev, ?_, ?_, by decide, by decide⟩
  · unfold is_allowed
    rw [hev]
    by_cases h : (w.filter (fun t => decide (now - 60 < t))).length < 100
    · simp [h]
    · simp [h]
  · intro hadm
    unfold is_allowed at hadm ⊢
    rw [hev] at hadm ⊢
    by_cases h : (w.filter (fun t => decide (now - 60 < t))).length < 100
    · simp [h]
    · simp [h] at hadm

/-- Witness for C9 on a small sorted queue. -/
theorem rate_limiter_window_witness :
    (is_allowed 100 70 [0, 10]).1 = true :=
  ((rate_limiter_window 70 [0, 10] (by decide)).2.1).mpr (by decide)

/-- C10: `borrow_book` accepts optional `borrowed_at`/`due_date` overrides and
`return_book` an optional `returned_at` override; a supplied `due_date` is
stored verbatim (the `borrowed_at + 14 days` derivation is skipped), a
supplied `borrowed_at`/`returned_at` is stored verbatim, and override calls
run exactly the same checks (same errors) and the same inventory mutation as
default calls. -/
theorem timestamp_overrides (s : DBState) (bookId memberId : Nat) (now : Int)
    (b d : Int) (newId : Nat) (borrowId : Nat) (t : Int) :
    (∀ s' rec, borrow_book s bookId memberId now (some b) (some d) newId
        = Except.ok (s', rec) → rec.borrowed_at = b ∧ rec.due_date = some d) ∧
    (∀ e, borrow_book s bookId memberId now (some b) (some d) newId
        = Except.error e ↔
      borrow_book s bookId memberId now none none newId = Except.error e) ∧
    (∀ s1 rec1 s2 rec2,
      borrow_book s bookId memberId now (some b) (some d) newId
        = Except.ok (s1, rec1) →
      borrow_book s bookId memberId now none none newId = Except.ok (s2, rec2) →
      s1.books = s2.books) ∧
    (∀ s' rec, return_book s borrowId now (some t) = Except.ok (s', rec) →
      rec.returned_at = some t) := by
  refine ⟨?_, ?_, ?_, ?_⟩
  · intro s' rec hres
    obtain ⟨-, -, -, book, -, -, hrec, -⟩ := borrow_book_ok_elim hres
    exact ⟨by simp [hrec], by simp [hrec]⟩
  · intro e
    unfold borrow_book
    by_cases h1 : MAX_ACTIVE_BORROWS ≤ countActiveBorrows s memberId
    · simp [h1]
    simp only [if_neg h1]
    cases h2 : memberExists s memberId with
    | false => simp [h2]
    | true =>
      simp only [h2, Bool.not_true, Bool.false_eq_true, if_false]
      cases h3 : getActiveBorrow s bookId memberId with
      | some r => simp [h3]
      | none =>
        simp only [h3, Option.isSome_none, Bool.false_eq_true, if_false]
        cases h4 : getBook s bookId with
        | none => simp
        | some book =>
          by_cases h5 : book.available_copies < 1
          · simp [h5]
          · simp [h5]
  · intro s1 rec1 s2 rec2 h1 h2
    obtain ⟨-, -, -, book1, hb1, -, -, hs1⟩ := borrow_book_ok_elim h1
    obtain ⟨-, -, -, book2, hb2, -, -, hs2⟩ := borrow_book_ok_elim h2
    rw [hs1, hs2]
  · intro s' rec hres
    obtain ⟨rec0, -, -, -, hrec, -⟩ := return_book_ok_elim hres
    simp [hrec]

/-- The record created by the demo grant with explicit timestamp overrides. -/
def demoRecOverride : BorrowRecord :=
  { id := 100, book_id := 1, member_id := 7, borrowed_at := 55,
    due_date := some 99, returned_at := none, status := .borrowed }

/-- The state after the demo grant with overrides. -/
def demoStateAfterOverride : DBState :=
  { books := [{ id := 1, total_copies := 5, available_copies := 4, version_id := 2 }],
    members := [7], borrows := [demoRecOverride] }

/-- Witness for C10: the overridden timestamps are stored verbatim. -/
theorem timestamp_overrides_witness :
    demoRecOverride.borrowed_at = 55 ∧ demoRecOverride.due_date = some 99 :=
  (timestamp_overrides demoState 1 7 0 55 99 100 0 0).1 demoStateAfterOverride
    demoRecOverride rfl

end LibApp
